import Mathlib

/-!
# golang-webserver-production: the server shell of `main.go`

A shallow embedding of `main.go` (type `Server`, `New`, `Server.Run`,
`Server.HandlerFunc`, the listener goroutine) together with the library
behaviour the program relies on (`fmt` integer formatting, the error values of
`context` and `net/http`, `http.TimeoutHandler`).

Effects are recorded as a trace of events, in program order.  What the outside
world decides (whether a value arrives on `stopCh`, what `Shutdown` and `Close`
return, what `ListenAndServe` returns, which patterns the mux accepts and how
it routes, what a handler does and when, which of the events it waits for the
wrapper sees first) is an input of the model.
-/

namespace WebServer

/-! ## Error values -/

/-- The non-nil values of Go's `error` interface that the program can meet.
Two values are `==` in Go exactly when they are the same constructor here. -/
inductive ErrorValue where
  /-- The value `context.DeadlineExceeded`. -/
  | DeadlineExceeded
  /-- The value `context.Canceled`. -/
  | Canceled
  /-- The value `http.ErrServerClosed`. -/
  | ErrServerClosed
  /-- The value `http.ErrHandlerTimeout`. -/
  | ErrHandlerTimeout
  /-- Any other error value, with the text its `Error()` method returns. -/
  | other (msg : String)
  deriving DecidableEq, Repr

/-- Go's `error`: `none` is `nil`. -/
abbrev error := Option ErrorValue

/-- The method `Error()` of an error value. -/
def ErrorValue.Error : ErrorValue → String
  | .DeadlineExceeded => "context deadline exceeded"
  | .Canceled => "context canceled"
  | .ErrServerClosed => "http: Server closed"
  | .ErrHandlerTimeout => "http: Handler timeout"
  | .other msg => msg

/-! ## Durations and the two constants of `main.go` -/

/-- The constant `time.Second`, in nanoseconds (the unit of `time.Duration`). -/
def Second : Nat := 1000000000

/-- The constant `httpAPITimeout = time.Second * 3`. -/
def httpAPITimeout : Nat := Second * 3

/-- The constant `shutdownTimeout = time.Second * 10`. -/
def shutdownTimeout : Nat := Second * 10

/-! ## `fmt` -/

/-- The digit loop of `fmt`'s integer formatting in base 10: while `u >= 10`
it stores the byte `'0' + u - next*10` with `next = u/10` in front of the
buffer and goes on with `next`, then stores `'0' + u`.  The first argument
bounds the number of iterations; `u` itself is always enough. -/
def fmtDigits : Nat → Nat → List Char → List Char
  | 0, u, buf => Char.ofNat ('0'.toNat + u) :: buf
  | fuel + 1, u, buf =>
    if u ≥ 10 then
      let next := u / 10
      fmtDigits fuel next (Char.ofNat ('0'.toNat + u - next * 10) :: buf)
    else
      Char.ofNat ('0'.toNat + u) :: buf

/-- The verb `%d` applied to an `int`: the digits of the absolute value, with
a leading `-` when the value is negative. -/
def fmtInteger (a : Int) : String :=
  let u := a.natAbs
  let digits := fmtDigits u u []
  if a < 0 then String.mk ('-' :: digits) else String.mk digits

/-- The verb `%s` applied to an `error` operand: the text of `Error()`, and
`%!s(<nil>)` for a nil operand. -/
def fmtErrorS : error → String
  | none => "%!s(<nil>)"
  | some e => e.Error

/-- The verb `%v` applied to an `error` operand: the text of `Error()`, and
`<nil>` for a nil operand. -/
def fmtErrorV : error → String
  | none => "<nil>"
  | some e => e.Error

/-! ## Requests, handlers and the mux -/

/-- An HTTP header map: the values stored under each key. -/
abbrev Header := String → Option (List String)

/-- What a handler does to the `http.ResponseWriter` it is given. -/
inductive WriterOp where
  /-- A change of the map returned by `Header()` (`Add`, `Set`, `Del`, ...). -/
  | header (f : Header → Header)
  /-- A call `WriteHeader(code)`. -/
  | writeHeader (code : Nat)
  /-- A call `Write(p)`. -/
  | write (p : String)

/-- How the execution of a handler ends, with the time at which it does. -/
inductive Ending where
  /-- The handler returns. -/
  | returns (t : Nat)
  /-- The handler panics. -/
  | panics (t : Nat)
  /-- The handler neither returns nor panics. -/
  | never

/-- One execution of a handler on one request: the calls it makes on its
`ResponseWriter`, in order, each with the time at which it is made, and how it
ends.  Times are in nanoseconds from the moment the request began. -/
structure Execution where
  ops : List (Nat × WriterOp)
  ending : Ending

/-- An incoming request, as far as routing is concerned. -/
structure Request where
  method : String
  path : String

/-- The five handlers of `net/http/pprof` that `New` registers. -/
inductive PprofHandler where
  | Index
  | Profile
  | Trace
  | Symbol
  | Cmdline
  deriving DecidableEq, Repr

/-- A handler that can be registered on the mux; a function value is never
nil here. -/
inductive RouteHandler where
  /-- One of the handlers of `net/http/pprof`. -/
  | pprof (h : PprofHandler)
  /-- A function `func(w http.ResponseWriter, r *http.Request)`. -/
  | func (f : Request → Execution)

/-- The `http.ServeMux`: its registrations, oldest first. -/
structure ServeMux where
  entries : List (String × RouteHandler)

/-- The function `http.NewServeMux()`. -/
def NewServeMux : ServeMux := ⟨[]⟩

/-- The patterns registered on a mux, oldest first. -/
def ServeMux.patterns (mux : ServeMux) : List String :=
  mux.entries.map Prod.fst

/-- The mux after a call of `HandleFunc`, and whether the call panicked. -/
structure MuxRegistration where
  mux : ServeMux
  panicked : Bool

/-- The method `(*ServeMux).HandleFunc(pattern, handler)`.  The library panics,
registering nothing, on an empty pattern, on a pattern that is already
registered, and on any other pattern it finds malformed or in conflict with a
registered one; `accepted` is its verdict in that last respect, the pattern
grammar being the library's.  Otherwise the registration is added. -/
def ServeMux.HandleFunc (mux : ServeMux) (pattern : String) (handler : RouteHandler)
    (accepted : Bool) : MuxRegistration :=
  if pattern = "" then { mux := mux, panicked := true }
  else if pattern ∈ mux.patterns then { mux := mux, panicked := true }
  else if accepted = false then { mux := mux, panicked := true }
  else { mux := ⟨mux.entries ++ [(pattern, handler)]⟩, panicked := false }

/-- What `net/http` decides when the mux serves a request: `route` gives the
position, among the registered patterns, of the registration chosen for the
request, or `none` when the mux answers by itself (not found, redirect);
`own` is that answer; `pprof` is what a handler of `net/http/pprof` does. -/
structure MuxLibrary where
  route : List String → Request → Option Nat
  own : List String → Request → Execution
  pprof : PprofHandler → Request → Execution

/-- Running a registered handler on a request. -/
def RouteHandler.ServeHTTP (lib : MuxLibrary) : RouteHandler → Request → Execution
  | .pprof h, r => lib.pprof h r
  | .func f, r => f r

/-- The method `(*ServeMux).ServeHTTP(w, r)`: the handler of the registration
the library chooses is run on the request. -/
def ServeMux.ServeHTTP (lib : MuxLibrary) (mux : ServeMux) (r : Request) : Execution :=
  match lib.route mux.patterns r with
  | none => lib.own mux.patterns r
  | some i =>
    match mux.entries.get? i with
    | none => lib.own mux.patterns r
    | some entry => entry.2.ServeHTTP lib r

/-! ## The server -/

/-- The handler a `timeoutHandler` wraps.  In `New` it is the pointer `s.mux`:
the wrapper and the field `Server.mux` share one mux object. -/
inductive InnerHandler where
  | serverMux
  deriving DecidableEq, Repr

/-- The value built by `http.TimeoutHandler(h, dt, msg)`. -/
structure timeoutHandler where
  handler : InnerHandler
  body : String
  dt : Nat
  deriving DecidableEq, Repr

/-- The function `http.TimeoutHandler(h, dt, msg)`. -/
def TimeoutHandler (h : InnerHandler) (dt : Nat) (msg : String) : timeoutHandler :=
  { handler := h, body := msg, dt := dt }

/-- The fields of `http.Server` that `New` sets. -/
structure HttpServer where
  Addr : String
  Handler : timeoutHandler
  deriving DecidableEq, Repr

/-- The type `Server` of `main.go`. -/
structure Server where
  http : HttpServer
  mux : ServeMux

/-- The function `New(port)` of `main.go`.  The five patterns are not empty,
differ from one another, and are accepted by the library, so none of the five
registrations panics. -/
def New (port : Int) : Server :=
  let mux := NewServeMux
  let mux := (mux.HandleFunc "/debug/pprof/" (.pprof .Index) true).mux
  let mux := (mux.HandleFunc "/debug/pprof/profile" (.pprof .Profile) true).mux
  let mux := (mux.HandleFunc "/debug/pprof/trace" (.pprof .Trace) true).mux
  let mux := (mux.HandleFunc "/debug/pprof/symbol" (.pprof .Symbol) true).mux
  let mux := (mux.HandleFunc "/debug/pprof/cmdline" (.pprof .Cmdline) true).mux
  { mux := mux
    http :=
      { Addr := ":" ++ fmtInteger port
        Handler := TimeoutHandler .serverMux httpAPITimeout "" } }

/-- The server after a call of `HandlerFunc`, and whether the call panicked. -/
structure ServerRegistration where
  server : Server
  panicked : Bool

/-- The method `(*Server).HandlerFunc(pattern, handler)` of `main.go`:
`s.mux.HandleFunc(pattern, handler)`, with the library's verdict on the
pattern. -/
def Server.HandlerFunc (s : Server) (pattern : String) (handler : Request → Execution)
    (accepted : Bool) : ServerRegistration :=
  let reg := s.mux.HandleFunc pattern (.func handler) accepted
  { server := { s with mux := reg.mux }, panicked := reg.panicked }

/-- The registrations `main` or any other caller makes after `New`: one call
of `HandlerFunc` per route, in order; a panic ends the sequence. -/
def Server.register (s : Server) :
    List (String × (Request → Execution) × Bool) → ServerRegistration
  | [] => { server := s, panicked := false }
  | route :: rest =>
    let reg := s.HandlerFunc route.1 route.2.1 route.2.2
    if reg.panicked = true then reg else reg.server.register rest

/-! ## `http.TimeoutHandler`

The behaviour of the library's timeout wrapper (`net/http`, type
`timeoutHandler`).  It runs the wrapped handler in a goroutine of its own on a
buffering writer and waits in a `select` for the first of three events: the
handler panicking, the handler returning, or the request's context being
done, which happens when the timer of length `dt` fires or when the context
of the incoming request is cancelled (the client went away). -/

/-- The constant `http.StatusOK`. -/
def StatusOK : Nat := 200

/-- The constant `http.StatusServiceUnavailable`. -/
def StatusServiceUnavailable : Nat := 503

/-- The type `timeoutWriter`: the `ResponseWriter` the wrapped handler is
given.  It buffers; it never writes to the connection. -/
structure timeoutWriter where
  h : Header
  wbuf : String
  err : error
  wroteHeader : Bool
  code : Nat

/-- The method `writeHeaderLocked(code)`; `none` is a panic.  The function
`checkWriteHeaderCode` panics on a code outside 100..999 before anything
else is looked at; a repeated call is only logged. -/
def timeoutWriter.writeHeaderLocked (tw : timeoutWriter) (code : Nat) :
    Option timeoutWriter :=
  if code < 100 ∨ code > 999 then none
  else if tw.err ≠ none then some tw
  else if tw.wroteHeader = true then some tw
  else some { tw with wroteHeader := true, code := code }

/-- The method `Write(p)`: the writer afterwards and the error returned.  Its
call `writeHeaderLocked(StatusOK)` does not panic, 200 being a valid code. -/
def timeoutWriter.Write (tw : timeoutWriter) (p : String) : timeoutWriter × error :=
  if tw.err ≠ none then (tw, tw.err)
  else
    let tw :=
      if tw.wroteHeader = false then (tw.writeHeaderLocked StatusOK).getD tw else tw
    ({ tw with wbuf := tw.wbuf ++ p }, none)

/-- One call of the wrapped handler on its writer; `none` is a panic. -/
def timeoutWriter.apply (tw : timeoutWriter) : WriterOp → Option timeoutWriter
  | .header f => some { tw with h := f tw.h }
  | .writeHeader code => tw.writeHeaderLocked code
  | .write p => some (tw.Write p).1

/-- The calls of the wrapped handler on its writer, in order, up to the first
one that panics: the writer afterwards, and whether a call panicked. -/
def timeoutWriter.run (tw : timeoutWriter) : List (Nat × WriterOp) → timeoutWriter × Bool
  | [] => (tw, false)
  | op :: rest =>
    match tw.apply op.2 with
    | none => (tw, true)
    | some tw => tw.run rest

/-- The time of the first call that panics in the writer: a `WriteHeader` with
a code outside 100..999. -/
def firstPanic : List (Nat × WriterOp) → Option Nat
  | [] => none
  | (t, .writeHeader code) :: rest =>
    if code < 100 ∨ code > 999 then some t else firstPanic rest
  | _ :: rest => firstPanic rest

/-- The time at which the handler goroutine panics, if it does: in a call on
the writer, or by itself. -/
def Execution.panicAt (inner : Execution) : Option Nat :=
  match firstPanic inner.ops with
  | some t => some t
  | none =>
    match inner.ending with
    | .panics t => some t
    | _ => none

/-- The time at which the wrapped handler returns, closing `done`, if it
does. -/
def Execution.returnAt (inner : Execution) : Option Nat :=
  match firstPanic inner.ops with
  | some _ => none
  | none =>
    match inner.ending with
    | .returns t => some t
    | _ => none

/-- The `ResponseWriter` of the connection, as a record of what is passed to
it: its header map, the codes of the calls `WriteHeader(code)` made on it, and
the bytes given to `Write`. -/
structure ClientWriter where
  header : Header
  status : List Nat
  body : String

/-- The writer of a connection on which nothing has been sent yet. -/
def ClientWriter.fresh : ClientWriter :=
  { header := fun _ => none, status := [], body := "" }

/-- The loop `for k, vv := range tw.h { dst[k] = vv }`. -/
def copyHeader (src dst : Header) : Header :=
  fun k =>
    match src k with
    | some vv => some vv
    | none => dst k

/-- The method `errorBody()`: the message given to `TimeoutHandler`, and the
library's default page when that message is empty. -/
def timeoutHandler.errorBody (h : timeoutHandler) : String :=
  if h.body ≠ "" then h.body
  else "<html><head><title>Timeout</title></head><body><h1>Timeout</h1></body></html>"

/-- The events the `select` in `ServeHTTP` waits for. -/
inductive Fired where
  /-- The case `p := <-panicChan`: the wrapped handler has panicked. -/
  | panicked
  /-- The case `<-done`: the wrapped handler has returned. -/
  | done
  /-- The case `<-ctx.Done()` with `ctx.Err()` equal to
  `context.DeadlineExceeded`: the timer of length `dt` has fired. -/
  | deadline
  /-- The case `<-ctx.Done()` with another error: the context of the incoming
  request has been cancelled. -/
  | cancelled
  deriving DecidableEq, Repr

/-- The time at which each event happens, if it does; `cancelAt` is the time
at which the context of the incoming request is cancelled. -/
def eventTime (h : timeoutHandler) (inner : Execution) (cancelAt : Option Nat) :
    Fired → Option Nat
  | .panicked => inner.panicAt
  | .done => inner.returnAt
  | .deadline => some h.dt
  | .cancelled => cancelAt

/-- An event that happens at `t'`, if at all, does not come before `t`. -/
def notBefore (t : Nat) : Option Nat → Bool
  | none => true
  | some t' => decide (t ≤ t')

/-- An event happens later than `t`, or never. -/
def laterThan (t : Nat) : Option Nat → Bool
  | none => true
  | some t' => decide (t < t')

/-- Whether the `select` can take the case `c`: its event happens and no
other event happens earlier.  Of events that happen at the same instant the
runtime may take any. -/
def mayFire (h : timeoutHandler) (inner : Execution) (cancelAt : Option Nat)
    (c : Fired) : Bool :=
  match eventTime h inner cancelAt c with
  | none => false
  | some t =>
    notBefore t inner.panicAt && notBefore t inner.returnAt && notBefore t (some h.dt)
      && notBefore t cancelAt

/-- The state after `ServeHTTP`: the connection's writer, the buffering writer
and whether `ServeHTTP` panicked. -/
structure Served where
  w : ClientWriter
  tw : timeoutWriter
  panicked : Bool

/-- The buffering writer when the request's context is done at time `t` with
the error `e`: the calls the handler made before `t` went to the writer, then
`tw.err = e` is stored, and the calls it makes afterwards still go to the
writer, unless an earlier one panicked. -/
def timeoutWriter.runAround (tw : timeoutWriter) (ops : List (Nat × WriterOp)) (t : Nat)
    (e : ErrorValue) : timeoutWriter :=
  let early := tw.run (ops.takeWhile fun op => op.1 < t)
  let tw := { early.1 with err := some e }
  if early.2 = true then tw else (tw.run (ops.dropWhile fun op => op.1 < t)).1

/-- The method `(*timeoutHandler).ServeHTTP(w, r)`, for one execution `inner`
of the wrapped handler, when the `select` takes the case `c`; `cancelAt` is
the time at which the context of the incoming request is cancelled, if it
is. -/
def timeoutHandler.ServeHTTP (h : timeoutHandler) (inner : Execution)
    (cancelAt : Option Nat) (c : Fired) (w : ClientWriter) : Served :=
  let tw : timeoutWriter :=
    { h := fun _ => none, wbuf := "", err := none, wroteHeader := false, code := 0 }
  match c with
  | .panicked =>
    -- case p := <-panicChan: panic(p)
    { w := w, tw := (tw.run inner.ops).1, panicked := true }
  | .done =>
    -- the handler has returned: every call it made went to tw
    let tw := (tw.run inner.ops).1
    -- dst := w.Header(); for k, vv := range tw.h { dst[k] = vv }
    let dst := copyHeader tw.h w.header
    -- if !tw.wroteHeader { tw.code = StatusOK }
    let tw := if tw.wroteHeader = false then { tw with code := StatusOK } else tw
    -- w.WriteHeader(tw.code); w.Write(tw.wbuf.Bytes())
    { w := { header := dst, status := w.status ++ [tw.code], body := w.body ++ tw.wbuf }
      tw := tw
      panicked := false }
  | .deadline =>
    -- w.WriteHeader(StatusServiceUnavailable); io.WriteString(w, h.errorBody())
    -- tw.err = ErrHandlerTimeout
    { w := { w with status := w.status ++ [StatusServiceUnavailable]
                    body := w.body ++ h.errorBody }
      tw := tw.runAround inner.ops h.dt ErrorValue.ErrHandlerTimeout
      panicked := false }
  | .cancelled =>
    -- default: w.WriteHeader(StatusServiceUnavailable); tw.err = err
    { w := { w with status := w.status ++ [StatusServiceUnavailable] }
      tw :=
        match cancelAt with
        | some t => tw.runAround inner.ops t ErrorValue.Canceled
        | none => tw
      panicked := false }

/-- Serving one request through `s.http.Handler`: the wrapped handler is the
mux `s.mux`. -/
def Server.ServeHTTP (lib : MuxLibrary) (s : Server) (r : Request)
    (cancelAt : Option Nat) (c : Fired) (w : ClientWriter) : Served :=
  match s.http.Handler.handler with
  | .serverMux => s.http.Handler.ServeHTTP (s.mux.ServeHTTP lib r) cancelAt c w

/-- The status a handler's calls amount to on the writer it is given: the
code of its first `WriteHeader`, or 200 when a `Write` comes first or nothing
is written. -/
def statusOf : List WriterOp → Nat
  | [] => 200
  | .writeHeader code :: _ => code
  | .write _ :: _ => 200
  | .header _ :: rest => statusOf rest

/-- The body a handler's calls amount to: everything written, in order. -/
def bodyOf : List WriterOp → String
  | [] => ""
  | .write p :: rest => p ++ bodyOf rest
  | _ :: rest => bodyOf rest

/-- The header map as the handler leaves it when it returns, from `start`:
every change it makes, in order, also those made after the status or the
body was written. -/
def headerAtReturn (start : Header) : List WriterOp → Header
  | [] => start
  | .header f :: rest => headerAtReturn (f start) rest
  | _ :: rest => headerAtReturn start rest

/-- The header map of the response a handler's calls produce on the server's
own `ResponseWriter`, from `start`, for a handler that does not panic: the map
as it stands at the first `WriteHeader` with a final status or at the first
`Write`.  Changing the map afterwards has no effect (trailers aside); codes of
the 1xx class other than 101 are informational and do not fix the map. -/
def plainHeaderOf (start : Header) : List WriterOp → Header
  | [] => start
  | .header f :: rest => plainHeaderOf (f start) rest
  | .writeHeader code :: rest =>
    if 100 ≤ code ∧ code ≤ 199 ∧ code ≠ 101 then plainHeaderOf start rest else start
  | .write _ :: _ => start

/-! ## `Server.Run` -/

/-- The effects of `Server.Run`, in the order they happen. -/
inductive Event where
  /-- The statement `go func() { ... }()` starting the listener goroutine. -/
  | goListener
  /-- Text written to standard output. -/
  | print (text : String)
  /-- The receive `<-stopCh` completing. -/
  | recvStop
  /-- The call `context.WithTimeout(context.Background(), d)`. -/
  | withTimeout (d : Nat)
  /-- The call of `s.http.Shutdown(ctx)`. -/
  | shutdownCall
  /-- The return of `s.http.Shutdown(ctx)` with its result. -/
  | shutdownReturn (err : error)
  /-- The call of `s.http.Close()`. -/
  | closeCall
  /-- The return of `s.http.Close()` with its result. -/
  | closeReturn (err : error)
  /-- The deferred call `cancel()`. -/
  | cancel
  /-- The deferred call `wg.Done()`. -/
  | wgDone
  deriving DecidableEq, Repr

/-- What the outside world decides during one execution of `Server.Run`. -/
structure Env where
  /-- Whether a value is ever delivered on `stopCh`. -/
  stop : Bool
  /-- The result of `s.http.Shutdown(ctx)`. -/
  shutdownErr : error
  /-- The result of `s.http.Close()`. -/
  closeErr : error

/-- One execution of `Server.Run`: its effects, and whether it returned
(it does not when it stays blocked on `<-stopCh`). -/
structure RunResult where
  trace : List Event
  returned : Bool
  deriving DecidableEq, Repr

/-- A `return` of `Run`: the deferred calls run, last deferred first. -/
def runReturn (trace : List Event) (deferred : List Event) : RunResult :=
  { trace := trace ++ deferred, returned := true }

/-- The header of the second `if` of `Run`,
`if err = context.DeadlineExceeded; err != nil`: the simple statement assigns
`context.DeadlineExceeded` to `err`, then the condition `err != nil` is
evaluated.  The result is the new value of `err` and the value of the
condition; the argument is the value `err` had before. -/
def deadlineTest (_err : error) : error × Bool :=
  let err : error := some ErrorValue.DeadlineExceeded
  (err, err != none)

/-- The method `(*Server).Run(stopCh, wg)` of `main.go`, statement by
statement.  `deferred` is the stack of deferred calls, top first; `err` is the
local variable `err`. -/
def Server.Run (s : Server) (env : Env) : RunResult :=
  -- defer wg.Done()
  let deferred := [Event.wgDone]
  -- go func() { ... }()
  let trace := [Event.goListener]
  -- fmt.Printf("listening on %s \n", s.http.Addr)
  let trace := trace ++ [Event.print ("listening on " ++ s.http.Addr ++ " \n")]
  -- <-stopCh
  if env.stop = false then
    { trace := trace, returned := false }
  else
    let trace := trace ++ [Event.recvStop]
    -- ctx, cancel := context.WithTimeout(context.Background(), shutdownTimeout)
    let trace := trace ++ [Event.withTimeout shutdownTimeout]
    -- defer cancel()
    let deferred := Event.cancel :: deferred
    -- if err = s.http.Shutdown(ctx); err == nil
    let trace := trace ++ [Event.shutdownCall, Event.shutdownReturn env.shutdownErr]
    let err : error := env.shutdownErr
    if err = none then
      -- fmt.Println("http server shutdown"); return
      let trace := trace ++ [Event.print "http server shutdown\n"]
      runReturn trace deferred
    else
      -- if err = context.DeadlineExceeded; err != nil
      if (deadlineTest err).2 = true then
        -- fmt.Println("Shutdown timeout exceeded. Closing http server")
        let trace := trace ++ [Event.print "Shutdown timeout exceeded. Closing http server\n"]
        -- if err = s.http.Close(); err != nil
        let trace := trace ++ [Event.closeCall, Event.closeReturn env.closeErr]
        let err : error := env.closeErr
        let trace :=
          if err ≠ none then
            -- fmt.Printf("could not close http connection: %v \n", err)
            trace ++ [Event.print ("could not close http connection: " ++ fmtErrorV err ++ " \n")]
          else
            trace
        -- return
        runReturn trace deferred
      else
        -- fmt.Println("could not shutdown http server")
        let trace := trace ++ [Event.print "could not shutdown http server\n"]
        runReturn trace deferred

/-- How a goroutine ends: its effects, and the text of the value it panicked
with, if it panicked. -/
structure GoroutineResult where
  effects : List Event
  panic : Option String
  deriving DecidableEq, Repr

/-- The body of the goroutine started by `Run`, after
`s.http.ListenAndServe()` has returned `err2`. -/
def listenerGoroutine (err2 : error) : GoroutineResult :=
  -- if err2 := s.http.ListenAndServe(); err2 != http.ErrServerClosed
  if err2 ≠ some ErrorValue.ErrServerClosed then
    -- panic(fmt.Errorf("could not start http server %s\n", err2))
    { effects := [], panic := some ("could not start http server " ++ fmtErrorS err2 ++ "\n") }
  else
    { effects := [], panic := none }

/-! ## Reading a trace -/

/-- The text begins with `pre`. -/
def textBegins (pre text : String) : Bool :=
  pre.data.isPrefixOf text.data

/-- The event is a line of output that begins with `pre`. -/
def Event.printsLine (pre : String) : Event → Bool
  | .print text => textBegins pre text
  | _ => false

/-- The trace contains a line of output that begins with `pre`. -/
def prints (pre : String) (t : List Event) : Bool :=
  t.any (Event.printsLine pre)

/-- The number of calls of `s.http.Shutdown` in a trace. -/
def shutdownCalls (t : List Event) : Nat :=
  t.count Event.shutdownCall

/-- The number of calls of `s.http.Close` in a trace. -/
def closeCalls (t : List Event) : Nat :=
  t.count Event.closeCall

/-- Every occurrence of `b` in the trace has an occurrence of `a` somewhere
before it. -/
def Precedes (a b : Event) (t : List Event) : Prop :=
  ∀ pre post, t = pre ++ b :: post → a ∈ pre

/-- Nothing that follows an occurrence of `a` in the trace is a call of
`s.http.Shutdown` or of `s.http.Close`. -/
def NoServerCallAfter (a : Event) (t : List Event) : Prop :=
  ∀ pre post, t = pre ++ a :: post →
    Event.shutdownCall ∉ post ∧ Event.closeCall ∉ post

/-- The trace with the values returned by `Shutdown` left out: the calls `Run`
makes and the lines it prints. -/
def callsAndMessages (t : List Event) : List Event :=
  t.filter fun e =>
    match e with
    | .shutdownReturn _ => false
    | _ => true

/-- The three results of a shutdown attempt. -/
inductive ShutdownOutcome where
  | GracefulSuccess
  | GracefulTimeoutThenClosed
  | CloseFailed
  deriving DecidableEq, Repr

/-- The outcome a trace reports on standard output: graceful success is the
line "http server shutdown" alone; a forced close is announced by the line
"Shutdown timeout exceeded. Closing http server", and it failed when the line
"could not close http connection" follows. -/
def reports (t : List Event) : ShutdownOutcome → Bool
  | .GracefulSuccess =>
    prints "http server shutdown" t && !prints "Shutdown timeout exceeded" t
      && !prints "could not close http connection" t
  | .GracefulTimeoutThenClosed =>
    !prints "http server shutdown" t && prints "Shutdown timeout exceeded" t
      && !prints "could not close http connection" t
  | .CloseFailed =>
    !prints "http server shutdown" t && prints "Shutdown timeout exceeded" t
      && prints "could not close http connection" t

/-- The counter of the `sync.WaitGroup` after the events of a trace, from the
value `n`: `wg.Done()` is `wg.Add(-1)`. -/
def wgCounter (n : Int) : List Event → Int
  | [] => n
  | .wgDone :: t => wgCounter (n - 1) t
  | _ :: t => wgCounter n t

/-- The counter `wg` of `main` when `Run` starts: `new(sync.WaitGroup)`, then
`wg.Add(1)`. -/
def mainCounter : Int := 0 + 1

/-- Whether `wg.Wait()` in `main` can return once `Run` has performed the
events `done`: it returns only when the counter is zero. -/
def waitCanReturn (done : List Event) : Bool :=
  wgCounter mainCounter done == 0

/-! ## Lemmas on traces -/

theorem precedes_nil (a b : Event) : Precedes a b [] := by
  intro pre post h
  cases pre <;> simp at h

theorem precedes_cons (a b e : Event) (t : List Event) :
    Precedes a b (e :: t) ↔ e ≠ b ∧ (e = a ∨ Precedes a b t) := by
  constructor
  · intro h
    have hne : e ≠ b := by
      intro heq
      have := h [] t (by simp [heq])
      simp at this
    refine ⟨hne, ?_⟩
    by_cases hea : e = a
    · exact Or.inl hea
    · right
      intro pre post ht
      have := h (e :: pre) post (by simp [ht])
      rcases List.mem_cons.mp this with h1 | h1
      · exact absurd h1.symm hea
      · exact h1
  · rintro ⟨hne, hor⟩ pre post ht
    cases pre with
    | nil =>
      simp at ht
      exact absurd ht.1 hne
    | cons x pre =>
      simp at ht
      obtain ⟨hx, ht⟩ := ht
      subst hx
      rcases hor with h1 | h1
      · simp [h1]
      · exact List.mem_cons_of_mem _ (h1 pre post ht)

theorem noServerCallAfter_nil (a : Event) : NoServerCallAfter a [] := by
  intro pre post h
  cases pre <;> simp at h

theorem noServerCallAfter_cons (a e : Event) (t : List Event) :
    NoServerCallAfter a (e :: t) ↔
      (e = a → Event.shutdownCall ∉ t ∧ Event.closeCall ∉ t) ∧ NoServerCallAfter a t := by
  constructor
  · intro h
    refine ⟨?_, ?_⟩
    · intro hea
      exact h [] t (by simp [hea])
    · intro pre post ht
      exact h (e :: pre) post (by simp [ht])
  · rintro ⟨h1, h2⟩ pre post ht
    cases pre with
    | nil =>
      simp at ht
      obtain ⟨hx, ht⟩ := ht
      subst ht
      exact h1 hx
    | cons x pre =>
      simp at ht
      exact h2 pre post ht.2

/-! ## The four shapes of a run -/

theorem run_blocked (s : Server) (sd cl : error) :
    s.Run (Env.mk false sd cl) =
      { trace := [Event.goListener, Event.print ("listening on " ++ s.http.Addr ++ " \n")]
        returned := false } := by
  simp [Server.Run]

theorem run_graceful (s : Server) (cl : error) :
    s.Run (Env.mk true none cl) =
      { trace :=
          [Event.goListener, Event.print ("listening on " ++ s.http.Addr ++ " \n"),
            Event.recvStop, Event.withTimeout shutdownTimeout, Event.shutdownCall,
            Event.shutdownReturn none, Event.print "http server shutdown\n",
            Event.cancel, Event.wgDone]
        returned := true } := by
  simp [Server.Run, runReturn]

theorem run_forced_closed (s : Server) (e : ErrorValue) :
    s.Run (Env.mk true (some e) none) =
      { trace :=
          [Event.goListener, Event.print ("listening on " ++ s.http.Addr ++ " \n"),
            Event.recvStop, Event.withTimeout shutdownTimeout, Event.shutdownCall,
            Event.shutdownReturn (some e),
            Event.print "Shutdown timeout exceeded. Closing http server\n",
            Event.closeCall, Event.closeReturn none, Event.cancel, Event.wgDone]
        returned := true } := by
  simp [Server.Run, runReturn, deadlineTest]

theorem run_close_failed (s : Server) (e c : ErrorValue) :
    s.Run (Env.mk true (some e) (some c)) =
      { trace :=
          [Event.goListener, Event.print ("listening on " ++ s.http.Addr ++ " \n"),
            Event.recvStop, Event.withTimeout shutdownTimeout, Event.shutdownCall,
            Event.shutdownReturn (some e),
            Event.print "Shutdown timeout exceeded. Closing http server\n",
            Event.closeCall, Event.closeReturn (some c),
            Event.print ("could not close http connection: " ++ c.Error ++ " \n"),
            Event.cancel, Event.wgDone]
        returned := true } := by
  simp [Server.Run, runReturn, deadlineTest, fmtErrorV]

theorem prints_of_mem (pre text : String) (t : List Event) (hmem : Event.print text ∈ t)
    (hpre : textBegins pre text = true) : prints pre t = true := by
  unfold prints
  rw [List.any_eq_true]
  exact ⟨_, hmem, hpre⟩


theorem wgCounter_eq (t : List Event) (n : Int) :
    wgCounter n t = n - (t.count Event.wgDone : Nat) := by
  induction t generalizing n with
  | nil => simp [wgCounter]
  | cons e t ih =>
    cases e <;> simp [wgCounter, ih, List.count_cons]
    omega

theorem wait_needs_done (done : List Event) (h : waitCanReturn done = true) :
    Event.wgDone ∈ done := by
  by_contra hmem
  have hc : done.count Event.wgDone = 0 := List.count_eq_zero_of_not_mem hmem
  simp [waitCanReturn, wgCounter_eq, hc, mainCounter] at h

theorem done_closes_trace (body done rest : List Event)
    (h : body ++ [Event.cancel, Event.wgDone] = done ++ rest)
    (hbody : Event.wgDone ∉ body) (hdone : Event.wgDone ∈ done) : rest = [] := by
  rcases List.append_eq_append_iff.mp h with ⟨a, ha, hb⟩ | ⟨c, hc, _⟩
  · subst ha
    have hmem : Event.wgDone ∈ a := by
      rcases List.mem_append.mp hdone with h1 | h1
      · exact absurd h1 hbody
      · exact h1
    match a, hb, hmem with
    | [], _, hm => simp at hm
    | [x], hb, hm =>
      simp at hb hm
      subst hm
      simp at hb
    | [x, y], hb, _ =>
      simp at hb
      exact hb.2.2
    | x :: y :: z :: a, hb, _ => simp at hb
  · subst hc
    exact absurd (List.mem_append_left _ hdone) hbody


/-! ## Lemmas on integer formatting -/

theorem digit_eq_digitChar (d : Nat) (h : d < 10) :
    Char.ofNat ('0'.toNat + d) = Nat.digitChar d := by
  interval_cases d <;> rfl

theorem fmtDigits_eq_toDigitsCore (fuel : Nat) :
    ∀ (u : Nat) (buf : List Char) (fuel' : Nat), u ≤ fuel → u < fuel' →
      fmtDigits fuel u buf = Nat.toDigitsCore 10 fuel' u buf := by
  induction fuel with
  | zero =>
    intro u buf fuel' hu hf
    obtain ⟨k, rfl⟩ : ∃ k, fuel' = k + 1 := ⟨fuel' - 1, by omega⟩
    have hu0 : u = 0 := by omega
    subst hu0
    simp [fmtDigits, Nat.toDigitsCore]
    rfl
  | succ fuel ih =>
    intro u buf fuel' hu hf
    obtain ⟨k, rfl⟩ : ∃ k, fuel' = k + 1 := ⟨fuel' - 1, by omega⟩
    by_cases h10 : u ≥ 10
    · have hne : u / 10 ≠ 0 := by omega
      have hdig : '0'.toNat + u - u / 10 * 10 = '0'.toNat + u % 10 := by omega
      simp only [fmtDigits, Nat.toDigitsCore, h10, hne, if_true, if_false, hdig]
      rw [digit_eq_digitChar _ (Nat.mod_lt _ (by decide))]
      exact ih (u / 10) _ k (by omega) (by omega)
    · have hz : u / 10 = 0 := by omega
      have hm : u % 10 = u := by omega
      simp only [fmtDigits, Nat.toDigitsCore, h10, hz, hm, if_true, if_false]
      rw [digit_eq_digitChar _ (by omega)]

theorem fmtInteger_eq_toString (a : Int) : fmtInteger a = toString a := by
  cases a with
  | ofNat m =>
    have h : ¬ (Int.ofNat m < 0) := by simp
    simp only [fmtInteger, h, if_false]
    show String.mk (fmtDigits m m []) = _
    rw [fmtDigits_eq_toDigitsCore m m [] (m + 1) (Nat.le_refl _) (Nat.lt_succ_self _)]
    rfl
  | negSucc m =>
    have h : Int.negSucc m < 0 := Int.negSucc_lt_zero m
    simp only [fmtInteger, h, if_true]
    show String.mk ('-' :: fmtDigits (m + 1) (m + 1) []) = _
    rw [fmtDigits_eq_toDigitsCore (m + 1) (m + 1) [] (m + 1 + 1) (Nat.le_refl _)
      (Nat.lt_succ_self _)]
    rfl


/-! ## Lemmas on the mux and the buffering writer -/

theorem register_keeps_http (routes : List (String × (Request → Execution) × Bool)) :
    ∀ s : Server, (s.register routes).server.http = s.http := by
  induction routes with
  | nil => intro s; rfl
  | cons route rest ih =>
    intro s
    show (if (s.HandlerFunc route.1 route.2.1 route.2.2).panicked = true then
        s.HandlerFunc route.1 route.2.1 route.2.2
      else (s.HandlerFunc route.1 route.2.1 route.2.2).server.register rest).server.http =
      s.http
    split
    · rfl
    · rw [ih]
      rfl

theorem run_live (ops : List (Nat × WriterOp)) :
    ∀ tw : timeoutWriter, tw.err = none → firstPanic ops = none →
      (tw.run ops).2 = false ∧
      (tw.run ops).1.h = headerAtReturn tw.h (ops.map Prod.snd) ∧
      (tw.run ops).1.wbuf = tw.wbuf ++ bodyOf (ops.map Prod.snd) ∧
      (if (tw.run ops).1.wroteHeader = false then StatusOK else (tw.run ops).1.code) =
        (if tw.wroteHeader = false then statusOf (ops.map Prod.snd) else tw.code) := by
  induction ops with
  | nil =>
    intro tw _ _
    simp [timeoutWriter.run, headerAtReturn, bodyOf, statusOf, StatusOK]
  | cons op ops ih =>
    intro tw herr hpanic
    obtain ⟨time, op⟩ := op
    cases op with
    | header f =>
      have hp : firstPanic ops = none := by simpa [firstPanic] using hpanic
      have := ih { tw with h := f tw.h } herr hp
      simpa [timeoutWriter.run, timeoutWriter.apply, headerAtReturn, bodyOf, statusOf]
        using this
    | writeHeader code =>
      have hbad : ¬ (code < 100 ∨ code > 999) := by
        intro hb
        simp [firstPanic, hb] at hpanic
      have hp : firstPanic ops = none := by simpa [firstPanic, hbad] using hpanic
      by_cases hw : tw.wroteHeader = true
      · have := ih tw herr hp
        simpa [timeoutWriter.run, timeoutWriter.apply, timeoutWriter.writeHeaderLocked, hbad,
          herr, hw, headerAtReturn, bodyOf, statusOf] using this
      · have := ih { tw with wroteHeader := true, code := code } herr hp
        simpa [timeoutWriter.run, timeoutWriter.apply, timeoutWriter.writeHeaderLocked, hbad,
          herr, hw, headerAtReturn, bodyOf, statusOf] using this
    | write p =>
      have hp : firstPanic ops = none := by simpa [firstPanic] using hpanic
      by_cases hw : tw.wroteHeader = true
      · have := ih { tw with wbuf := tw.wbuf ++ p } herr hp
        simpa [timeoutWriter.run, timeoutWriter.apply, timeoutWriter.Write, herr, hw,
          headerAtReturn, bodyOf, statusOf, String.append_assoc] using this
      · have := ih { tw with wroteHeader := true, code := StatusOK, wbuf := tw.wbuf ++ p }
          herr hp
        simpa [timeoutWriter.run, timeoutWriter.apply, timeoutWriter.Write,
          timeoutWriter.writeHeaderLocked, herr, hw, headerAtReturn, bodyOf, statusOf,
          StatusOK, String.append_assoc] using this

theorem run_timed_out (ops : List (Nat × WriterOp)) :
    ∀ (tw : timeoutWriter) (e : ErrorValue), tw.err = some e →
      (tw.run ops).1.err = some e := by
  induction ops with
  | nil => intro tw e h; simpa [timeoutWriter.run] using h
  | cons op ops ih =>
    intro tw e herr
    obtain ⟨time, op⟩ := op
    cases op with
    | header f =>
      simpa [timeoutWriter.run, timeoutWriter.apply] using ih { tw with h := f tw.h } e herr
    | writeHeader code =>
      by_cases hbad : code < 100 ∨ code > 999
      · simpa [timeoutWriter.run, timeoutWriter.apply, timeoutWriter.writeHeaderLocked, hbad]
          using herr
      · simpa [timeoutWriter.run, timeoutWriter.apply, timeoutWriter.writeHeaderLocked, hbad,
          herr] using ih tw e herr
    | write p =>
      simpa [timeoutWriter.run, timeoutWriter.apply, timeoutWriter.Write, herr]
        using ih tw e herr

theorem copyHeader_fresh (src : Header) : copyHeader src ClientWriter.fresh.header = src := by
  funext k
  unfold copyHeader
  cases src k <;> rfl

theorem returnAt_some (inner : Execution) (t : Nat) (h : inner.returnAt = some t) :
    firstPanic inner.ops = none ∧ inner.panicAt = none := by
  unfold Execution.returnAt at h
  unfold Execution.panicAt
  cases hp : firstPanic inner.ops with
  | some t' => simp [hp] at h
  | none =>
    cases he : inner.ending <;> simp [hp, he] at h ⊢

theorem panicAt_some (inner : Execution) (t : Nat) (h : inner.panicAt = some t) :
    inner.returnAt = none := by
  cases hr : inner.returnAt with
  | none => rfl
  | some t' =>
    have := (returnAt_some inner t' hr).2
    rw [this] at h
    cases h

theorem runAround_err (tw : timeoutWriter) (ops : List (Nat × WriterOp)) (t : Nat)
    (e : ErrorValue) : (tw.runAround ops t e).err = some e := by
  simp only [timeoutWriter.runAround]
  split
  · rfl
  · exact run_timed_out _ _ _ rfl

theorem fire_done_of_early (h : timeoutHandler) (inner : Execution)
    (cancelAt : Option Nat) (c : Fired) (t : Nat)
    (hfire : mayFire h inner cancelAt c = true) (hr : inner.returnAt = some t)
    (ht : t < h.dt) (hc : laterThan t cancelAt = true) : c = .done := by
  have hp := (returnAt_some inner t hr).2
  cases cancelAt <;> cases c <;>
    simp [mayFire, eventTime, notBefore, laterThan, hr, hp] at hfire hc ⊢ <;> omega

theorem fire_panicked_of_early (h : timeoutHandler) (inner : Execution)
    (cancelAt : Option Nat) (c : Fired) (t : Nat)
    (hfire : mayFire h inner cancelAt c = true) (hp : inner.panicAt = some t)
    (ht : t < h.dt) (hc : laterThan t cancelAt = true) : c = .panicked := by
  have hr := panicAt_some inner t hp
  cases cancelAt <;> cases c <;>
    simp [mayFire, eventTime, notBefore, laterThan, hr, hp] at hfire hc ⊢ <;> omega

theorem fire_deadline_of_late (h : timeoutHandler) (inner : Execution)
    (cancelAt : Option Nat) (c : Fired)
    (hfire : mayFire h inner cancelAt c = true) (hr : laterThan h.dt inner.returnAt = true)
    (hp : laterThan h.dt inner.panicAt = true) (hc : laterThan h.dt cancelAt = true) :
    c = .deadline := by
  cases hr' : inner.returnAt <;> cases hp' : inner.panicAt <;> cases cancelAt <;>
    cases c <;>
    simp [mayFire, eventTime, notBefore, laterThan, hr', hp'] at hfire hr hp hc ⊢ <;> omega

theorem fire_tie (h : timeoutHandler) (inner : Execution) (cancelAt : Option Nat)
    (c : Fired) (hfire : mayFire h inner cancelAt c = true)
    (hr : inner.returnAt = some h.dt) (hc : laterThan h.dt cancelAt = true) :
    c = .done ∨ c = .deadline := by
  have hp := (returnAt_some inner h.dt hr).2
  cases cancelAt <;> cases c <;>
    simp [mayFire, eventTime, notBefore, laterThan, hr, hp] at hfire hc ⊢
  omega

theorem fire_cancelled_of_first (h : timeoutHandler) (inner : Execution) (c : Fired)
    (t : Nat) (hfire : mayFire h inner (some t) c = true) (ht : t < h.dt)
    (hr : laterThan t inner.returnAt = true) (hp : laterThan t inner.panicAt = true) :
    c = .cancelled := by
  cases hr' : inner.returnAt <;> cases hp' : inner.panicAt <;>
    cases c <;>
    simp [mayFire, eventTime, notBefore, laterThan, hr', hp'] at hfire hr hp ⊢ <;> omega

theorem fire_done_returns (h : timeoutHandler) (inner : Execution) (cancelAt : Option Nat)
    (hfire : mayFire h inner cancelAt .done = true) : firstPanic inner.ops = none := by
  cases hr : inner.returnAt with
  | none => simp [mayFire, eventTime, hr] at hfire
  | some t => exact (returnAt_some inner t hr).1

/-! ## Graceful shutdown and forced close -/

/-- C1: in every execution of `Run` in which `Shutdown` returns nil, `Run`
returns, prints "http server shutdown", never calls `Close`, and prints
neither the "Shutdown timeout exceeded" line nor the "could not close http
connection" line; the outcome it reports is graceful success. -/
theorem run_shutdown_nil_is_graceful (s : Server) (env : Env)
    (h : Event.shutdownReturn none ∈ (s.Run env).trace) :
    (s.Run env).returned = true ∧
      Event.print "http server shutdown\n" ∈ (s.Run env).trace ∧
      closeCalls (s.Run env).trace = 0 ∧
      Event.closeCall ∉ (s.Run env).trace ∧
      prints "Shutdown timeout exceeded" (s.Run env).trace = false ∧
      prints "could not close http connection" (s.Run env).trace = false ∧
      reports (s.Run env).trace .GracefulSuccess = true := by
  obtain ⟨stop, sd, cl⟩ := env
  cases stop
  · simp [run_blocked] at h
  · cases sd with
    | none =>
      simp [run_graceful, closeCalls, prints, reports, Event.printsLine, textBegins,
        String.data_append, List.isPrefixOf]
    | some e =>
      cases cl <;> simp [run_forced_closed, run_close_failed] at h

/-- C1 on the server of `main`: the stop arrives and `Shutdown` returns nil. -/
theorem run_shutdown_nil_is_graceful_witness :
    Event.shutdownReturn none ∈ ((New 8080).Run (Env.mk true none none)).trace ∧
      ((New 8080).Run (Env.mk true none none)).returned = true ∧
      Event.print "http server shutdown\n" ∈ ((New 8080).Run (Env.mk true none none)).trace ∧
      closeCalls ((New 8080).Run (Env.mk true none none)).trace = 0 ∧
      Event.closeCall ∉ ((New 8080).Run (Env.mk true none none)).trace ∧
      prints "Shutdown timeout exceeded"
        ((New 8080).Run (Env.mk true none none)).trace = false ∧
      prints "could not close http connection"
        ((New 8080).Run (Env.mk true none none)).trace = false ∧
      reports ((New 8080).Run (Env.mk true none none)).trace .GracefulSuccess = true :=
  ⟨by decide, run_shutdown_nil_is_graceful (New 8080) (Env.mk true none none) (by decide)⟩

/-- C2: in every execution of `Run` in which `Shutdown` returns
`context.DeadlineExceeded` (the context was made with the 10-second
`shutdownTimeout`), `Run` calls `Shutdown` once and `Close` exactly once, the
call of `Close` comes after the return of `Shutdown`, nothing is called on the
server after `Close` has returned, and `Run` returns.  The line "could not
close http connection" is printed, and the outcome is close-failed, exactly
when `Close` returns a non-nil error; the outcome is timeout-then-closed
exactly when `Close` returns nil. -/
theorem run_deadline_exceeded_force_closes (s : Server) (env : Env)
    (h : Event.shutdownReturn (some .DeadlineExceeded) ∈ (s.Run env).trace) :
    (s.Run env).returned = true ∧
      Event.withTimeout (10 * Second) ∈ (s.Run env).trace ∧
      Precedes (Event.withTimeout (10 * Second)) Event.shutdownCall (s.Run env).trace ∧
      shutdownCalls (s.Run env).trace = 1 ∧
      closeCalls (s.Run env).trace = 1 ∧
      Precedes (Event.shutdownReturn (some .DeadlineExceeded)) Event.closeCall
        (s.Run env).trace ∧
      Event.closeReturn env.closeErr ∈ (s.Run env).trace ∧
      NoServerCallAfter (Event.closeReturn env.closeErr) (s.Run env).trace ∧
      (prints "could not close http connection" (s.Run env).trace = true ↔
        env.closeErr ≠ none) ∧
      (reports (s.Run env).trace .CloseFailed = true ↔ env.closeErr ≠ none) ∧
      (reports (s.Run env).trace .GracefulTimeoutThenClosed = true ↔ env.closeErr = none) := by
  obtain ⟨stop, sd, cl⟩ := env
  cases stop
  · simp [run_blocked] at h
  · cases sd with
    | none => simp [run_graceful] at h
    | some e =>
      cases cl with
      | none =>
        simp [run_forced_closed] at h
        subst h
        simp [run_forced_closed, closeCalls, shutdownCalls, prints, reports,
          Event.printsLine, textBegins, String.data_append, List.isPrefixOf, precedes_cons,
          precedes_nil, noServerCallAfter_cons, noServerCallAfter_nil, shutdownTimeout,
          Nat.mul_comm]
      | some c =>
        simp [run_close_failed] at h
        subst h
        simp [run_close_failed, closeCalls, shutdownCalls, prints, reports,
          Event.printsLine, textBegins, String.data_append, List.isPrefixOf, precedes_cons,
          precedes_nil, noServerCallAfter_cons, noServerCallAfter_nil, shutdownTimeout,
          Nat.mul_comm]

/-- C2 on the server of `main`: the grace period elapses and `Close` fails. -/
theorem run_deadline_exceeded_force_closes_witness :
    Event.shutdownReturn (some .DeadlineExceeded) ∈
        ((New 8080).Run
          (Env.mk true (some .DeadlineExceeded) (some (.other "close failed")))).trace ∧
      ((New 8080).Run
        (Env.mk true (some .DeadlineExceeded) (some (.other "close failed")))).returned = true ∧
      closeCalls ((New 8080).Run
        (Env.mk true (some .DeadlineExceeded) (some (.other "close failed")))).trace = 1 ∧
      reports ((New 8080).Run
        (Env.mk true (some .DeadlineExceeded) (some (.other "close failed")))).trace
        .CloseFailed = true :=
  ⟨by decide,
    (run_deadline_exceeded_force_closes (New 8080)
      (Env.mk true (some .DeadlineExceeded) (some (.other "close failed"))) (by decide)).1,
    (run_deadline_exceeded_force_closes (New 8080)
      (Env.mk true (some .DeadlineExceeded) (some (.other "close failed")))
      (by decide)).2.2.2.2.1,
    ((run_deadline_exceeded_force_closes (New 8080)
      (Env.mk true (some .DeadlineExceeded) (some (.other "close failed")))
      (by decide)).2.2.2.2.2.2.2.2.2.1).mpr (by decide)⟩

/-! ## Early force-close -/

/-- C3, on the code: when `Shutdown` returns an error that is not
`context.DeadlineExceeded` (here the error of closing the listener) and
`Close` returns nil, `Run` still calls `Close` once and prints the "Shutdown
timeout exceeded" line; it does not print "could not shutdown http server". -/
theorem run_force_closes_on_other_error :
    Event.shutdownReturn (some .DeadlineExceeded) ∉
        ((New 8080).Run (Env.mk true (some (.other "close tcp [::]:8080: use of closed network connection")) none)).trace ∧
      closeCalls
        ((New 8080).Run (Env.mk true (some (.other "close tcp [::]:8080: use of closed network connection")) none)).trace = 1 ∧
      prints "Shutdown timeout exceeded"
        ((New 8080).Run (Env.mk true (some (.other "close tcp [::]:8080: use of closed network connection")) none)).trace = true ∧
      prints "could not shutdown http server"
        ((New 8080).Run (Env.mk true (some (.other "close tcp [::]:8080: use of closed network connection")) none)).trace = false := by
  decide

/-! ## The listener goroutine -/

/-- C4: for every value `err2` returned by `ListenAndServe`, the listener
goroutine panics exactly when `err2` is not `http.ErrServerClosed`; the value
it panics with is the text "could not start http server " followed by the
`%s` rendering of `err2` and a newline.  It has no other effect, and for
`http.ErrServerClosed` it ends without a panic and without any effect. -/
theorem listener_panics_iff_not_server_closed (err2 : error) :
    ((listenerGoroutine err2).panic ≠ none ↔ err2 ≠ some .ErrServerClosed) ∧
      (listenerGoroutine err2).panic =
        (if err2 = some .ErrServerClosed then none
          else some ("could not start http server " ++ fmtErrorS err2 ++ "\n")) ∧
      (listenerGoroutine err2).effects = [] ∧
      listenerGoroutine (some .ErrServerClosed) = { effects := [], panic := none } := by
  unfold listenerGoroutine
  by_cases h : err2 = some ErrorValue.ErrServerClosed <;> simp [h]

/-! ## The wait group -/

/-- C5: on every returning path of `Run`, `wg.Done` is called exactly once
and is the last effect: the trace is a body followed by the deferred `cancel`
and then `wg.Done`, and the body already holds the return of `Shutdown`, a
return of `Close` for every call of `Close`, and the outcome message.  Hence,
from the counter value 1 that `main` sets, `wg.Wait` can return only after
`Run` has performed its whole trace and returned; in a run that stays blocked
on `stopCh` it cannot return at all. -/
theorem run_done_is_last_effect (s : Server) (env : Env) :
    ((s.Run env).returned = true →
      (s.Run env).trace.count Event.wgDone = 1 ∧
      (s.Run env).trace.getLast? = some Event.wgDone ∧
      ∃ body, (s.Run env).trace = body ++ [Event.cancel, Event.wgDone] ∧
        Event.wgDone ∉ body ∧
        Event.shutdownReturn env.shutdownErr ∈ body ∧
        body.count (Event.closeReturn env.closeErr) = closeCalls body ∧
        reports body
          (if env.shutdownErr = none then .GracefulSuccess
            else if env.closeErr = none then .GracefulTimeoutThenClosed
            else .CloseFailed) = true) ∧
    (∀ done rest, (s.Run env).trace = done ++ rest → waitCanReturn done = true →
      rest = [] ∧ (s.Run env).returned = true) := by
  obtain ⟨stop, sd, cl⟩ := env
  cases stop
  · refine ⟨by simp [run_blocked], ?_⟩
    intro done rest hsplit hwait
    have hmem := wait_needs_done done hwait
    have : Event.wgDone ∈ (s.Run (Env.mk false sd cl)).trace := by
      rw [hsplit]; exact List.mem_append_left _ hmem
    simp [run_blocked] at this
  · cases sd with
    | none =>
      have hshape : (s.Run (Env.mk true none cl)).trace =
          [Event.goListener, Event.print ("listening on " ++ s.http.Addr ++ " \n"),
            Event.recvStop, Event.withTimeout shutdownTimeout, Event.shutdownCall,
            Event.shutdownReturn none, Event.print "http server shutdown\n"] ++
            [Event.cancel, Event.wgDone] := by
        simp [run_graceful]
      refine ⟨fun _ => ⟨by simp [run_graceful], by simp [run_graceful], _, hshape, ?_⟩, ?_⟩
      · simp [closeCalls, prints, reports, Event.printsLine, textBegins, String.data_append,
          List.isPrefixOf]
      · intro done rest hsplit hwait
        refine ⟨done_closes_trace _ done rest (hshape.symm.trans hsplit) (by simp)
          (wait_needs_done done hwait), by simp [run_graceful]⟩
    | some e =>
      cases cl with
      | none =>
        have hshape : (s.Run (Env.mk true (some e) none)).trace =
            [Event.goListener, Event.print ("listening on " ++ s.http.Addr ++ " \n"),
              Event.recvStop, Event.withTimeout shutdownTimeout, Event.shutdownCall,
              Event.shutdownReturn (some e),
              Event.print "Shutdown timeout exceeded. Closing http server\n",
              Event.closeCall, Event.closeReturn none] ++ [Event.cancel, Event.wgDone] := by
          simp [run_forced_closed]
        refine ⟨fun _ => ⟨by simp [run_forced_closed], by simp [run_forced_closed], _,
          hshape, ?_⟩, ?_⟩
        · simp [closeCalls, prints, reports, Event.printsLine, textBegins,
            String.data_append, List.isPrefixOf]
        · intro done rest hsplit hwait
          refine ⟨done_closes_trace _ done rest (hshape.symm.trans hsplit) (by simp)
            (wait_needs_done done hwait), by simp [run_forced_closed]⟩
      | some c =>
        have hshape : (s.Run (Env.mk true (some e) (some c))).trace =
            [Event.goListener, Event.print ("listening on " ++ s.http.Addr ++ " \n"),
              Event.recvStop, Event.withTimeout shutdownTimeout, Event.shutdownCall,
              Event.shutdownReturn (some e),
              Event.print "Shutdown timeout exceeded. Closing http server\n",
              Event.closeCall, Event.closeReturn (some c),
              Event.print ("could not close http connection: " ++ c.Error ++ " \n")] ++
              [Event.cancel, Event.wgDone] := by
          simp [run_close_failed]
        refine ⟨fun _ => ⟨by simp [run_close_failed], by simp [run_close_failed], _,
          hshape, ?_⟩, ?_⟩
        · simp [closeCalls, prints, reports, Event.printsLine, textBegins,
            String.data_append, List.isPrefixOf]
        · intro done rest hsplit hwait
          refine ⟨done_closes_trace _ done rest (hshape.symm.trans hsplit) (by simp)
            (wait_needs_done done hwait), by simp [run_close_failed]⟩

/-- C5 on the server of `main`, forced close: the run returns, `wg.Done` is
its last effect, and `wg.Wait` cannot return once `Run` has only got as far as
the return of `Close`. -/
theorem run_done_is_last_effect_witness :
    ((New 8080).Run (Env.mk true (some .DeadlineExceeded) none)).returned = true ∧
      ((New 8080).Run (Env.mk true (some .DeadlineExceeded) none)).trace.count
        Event.wgDone = 1 ∧
      ((New 8080).Run (Env.mk true (some .DeadlineExceeded) none)).trace.getLast? =
        some Event.wgDone ∧
      waitCanReturn
        [Event.goListener, Event.print "listening on :8080 \n", Event.recvStop,
          Event.withTimeout shutdownTimeout, Event.shutdownCall,
          Event.shutdownReturn (some .DeadlineExceeded),
          Event.print "Shutdown timeout exceeded. Closing http server\n",
          Event.closeCall, Event.closeReturn none] = false :=
  ⟨by decide,
    ((run_done_is_last_effect (New 8080) (Env.mk true (some .DeadlineExceeded) none)).1
      (by decide)).1,
    ((run_done_is_last_effect (New 8080) (Env.mk true (some .DeadlineExceeded) none)).1
      (by decide)).2.1,
    by
      cases hw : waitCanReturn
        [Event.goListener, Event.print "listening on :8080 \n", Event.recvStop,
          Event.withTimeout shutdownTimeout, Event.shutdownCall,
          Event.shutdownReturn (some .DeadlineExceeded),
          Event.print "Shutdown timeout exceeded. Closing http server\n",
          Event.closeCall, Event.closeReturn none] with
      | false => rfl
      | true =>
        have hrest := ((run_done_is_last_effect (New 8080)
          (Env.mk true (some .DeadlineExceeded) none)).2 _ [Event.cancel, Event.wgDone]
          (by decide) hw).1
        exact absurd hrest (by simp)⟩

/-! ## Ordering and the lifecycle -/

/-- C6: in every trace of `Run`, the receive on `stopCh` comes before the
creation of the grace-period context, before the call of `Shutdown` and
before any call of `Close`, and it is in the trace exactly when a value is
delivered.  When no value is ever delivered, `Run` does not return, creates no
context and calls neither `Shutdown` nor `Close`. -/
theorem run_shutdown_only_after_stop (s : Server) (env : Env) (d : Nat) (sd cl : error) :
    Precedes Event.recvStop (Event.withTimeout d) (s.Run env).trace ∧
      Precedes Event.recvStop Event.shutdownCall (s.Run env).trace ∧
      Precedes Event.recvStop Event.closeCall (s.Run env).trace ∧
      (Event.recvStop ∈ (s.Run env).trace ↔ env.stop = true) ∧
      (s.Run (Env.mk false sd cl)).returned = false ∧
      Event.withTimeout d ∉ (s.Run (Env.mk false sd cl)).trace ∧
      shutdownCalls (s.Run (Env.mk false sd cl)).trace = 0 ∧
      closeCalls (s.Run (Env.mk false sd cl)).trace = 0 := by
  obtain ⟨stop, sd', cl'⟩ := env
  cases stop
  · simp [run_blocked, precedes_cons, precedes_nil, closeCalls, shutdownCalls]
  · cases sd' with
    | none =>
      simp [run_blocked, run_graceful, precedes_cons, precedes_nil, closeCalls, shutdownCalls]
    | some e =>
      cases cl' <;>
        simp [run_blocked, run_forced_closed, run_close_failed, precedes_cons, precedes_nil,
          closeCalls, shutdownCalls]

/-- C7: for every result of `Shutdown` and of `Close`, a run in which the
stop arrives returns, calls `Shutdown` exactly once, calls `Close` not at all
when `Shutdown` returned nil and once otherwise, and then only after
`Shutdown` has returned.  It reports exactly one of the three outcomes:
graceful success when `Shutdown` returned nil, timeout-then-closed when
`Close` returned nil, close-failed otherwise.  After the return that decides
the outcome (of `Shutdown` with nil, else of `Close`) nothing more is called
on the server. -/
theorem run_follows_lifecycle (s : Server) (sd cl : error) :
    (s.Run (Env.mk true sd cl)).returned = true ∧
      shutdownCalls (s.Run (Env.mk true sd cl)).trace = 1 ∧
      closeCalls (s.Run (Env.mk true sd cl)).trace = (if sd = none then 0 else 1) ∧
      Precedes (Event.shutdownReturn sd) Event.closeCall (s.Run (Env.mk true sd cl)).trace ∧
      (∃! o, reports (s.Run (Env.mk true sd cl)).trace o = true) ∧
      reports (s.Run (Env.mk true sd cl)).trace
          (if sd = none then .GracefulSuccess
            else if cl = none then .GracefulTimeoutThenClosed else .CloseFailed) = true ∧
      (if sd = none then Event.shutdownReturn none else Event.closeReturn cl) ∈
        (s.Run (Env.mk true sd cl)).trace ∧
      NoServerCallAfter (if sd = none then Event.shutdownReturn none else Event.closeReturn cl)
        (s.Run (Env.mk true sd cl)).trace := by
  have huniq : ∀ (t : List Event) (o : ShutdownOutcome), reports t o = true →
      ∃! o, reports t o = true := by
    intro t o ho
    refine ⟨o, ho, ?_⟩
    intro o' ho'
    cases o <;> cases o' <;> simp_all [reports]
  cases sd with
  | none =>
    refine ⟨?_, ?_, ?_, ?_, huniq _ .GracefulSuccess ?_, ?_, ?_, ?_⟩ <;>
      simp [run_graceful, closeCalls, shutdownCalls, prints, reports,
        Event.printsLine, textBegins, String.data_append, List.isPrefixOf, precedes_cons,
        precedes_nil, noServerCallAfter_cons, noServerCallAfter_nil]
  | some e =>
    cases cl with
    | none =>
      refine ⟨?_, ?_, ?_, ?_, huniq _ .GracefulTimeoutThenClosed ?_, ?_, ?_, ?_⟩ <;>
        simp [run_forced_closed, closeCalls, shutdownCalls, prints, reports,
          Event.printsLine, textBegins, String.data_append, List.isPrefixOf, precedes_cons,
          precedes_nil, noServerCallAfter_cons, noServerCallAfter_nil]
    | some c =>
      refine ⟨?_, ?_, ?_, ?_, huniq _ .CloseFailed ?_, ?_, ?_, ?_⟩ <;>
        simp [run_close_failed, closeCalls, shutdownCalls, prints, reports,
          Event.printsLine, textBegins, String.data_append, List.isPrefixOf, precedes_cons,
          precedes_nil, noServerCallAfter_cons, noServerCallAfter_nil]

/-! ## The deadline test -/

/-- C10: the second `if` of `Run` overwrites `err` with
`context.DeadlineExceeded` and its test is true whatever `err` was.  So for
any two non-nil errors returned by `Shutdown` and the same result of `Close`,
`Run` makes the same calls and prints the same lines; it always prints
"Shutdown timeout exceeded. Closing http server" and calls `Close` once.  The
line "could not shutdown http server" is printed in no run at all. -/
theorem run_treats_every_shutdown_error_as_timeout (s : Server) (env : Env)
    (err : error) (e₁ e₂ : ErrorValue) (cl : error) :
    deadlineTest err = (some .DeadlineExceeded, true) ∧
      callsAndMessages (s.Run (Env.mk true (some e₁) cl)).trace =
        callsAndMessages (s.Run (Env.mk true (some e₂) cl)).trace ∧
      Event.print "Shutdown timeout exceeded. Closing http server\n" ∈
        (s.Run (Env.mk true (some e₁) cl)).trace ∧
      closeCalls (s.Run (Env.mk true (some e₁) cl)).trace = 1 ∧
      Event.print "could not shutdown http server\n" ∉ (s.Run env).trace ∧
      prints "could not shutdown http server" (s.Run env).trace = false := by
  have hnever : prints "could not shutdown http server" (s.Run env).trace = false := by
    obtain ⟨stop, sd, cl'⟩ := env
    cases stop
    · simp [run_blocked, prints, Event.printsLine, textBegins, String.data_append,
        List.isPrefixOf]
    · cases sd with
      | none =>
        simp [run_graceful, prints, Event.printsLine, textBegins, String.data_append,
          List.isPrefixOf]
      | some e =>
        cases cl' <;>
          simp [run_forced_closed, run_close_failed, prints, Event.printsLine, textBegins,
            String.data_append, List.isPrefixOf]
  refine ⟨by simp [deadlineTest], ?_, ?_, ?_, ?_, hnever⟩
  · cases cl <;> simp [run_forced_closed, run_close_failed, callsAndMessages]
  · cases cl <;> simp [run_forced_closed, run_close_failed]
  · cases cl <;> simp [run_forced_closed, run_close_failed, closeCalls]
  · intro hmem
    have := prints_of_mem "could not shutdown http server" _ _ hmem (by decide)
    rw [hnever] at this
    exact Bool.noConfusion this

/-! ## The listening address -/

/-- C9: for every integer `port`, the address of `New(port)` is the text ":"
followed by the decimal representation of `port`, with nothing before the
colon; `New(8080)` listens on ":8080".  `HandlerFunc` leaves the address of
any server unchanged, whether the registration succeeds or panics, so after
any number of registrations the address of `New(port)` is still ":" followed
by the decimal representation of `port`. -/
theorem new_listens_on_colon_port (port : Int) (s : Server) (pattern : String)
    (handler : Request → Execution) (accepted : Bool)
    (routes : List (String × (Request → Execution) × Bool)) :
    (New port).http.Addr = ":" ++ toString port ∧
      (New 8080).http.Addr = ":8080" ∧
      (s.HandlerFunc pattern handler accepted).server.http.Addr = s.http.Addr ∧
      ((New port).register routes).server.http.Addr = ":" ++ toString port := by
  have hnew : (New port).http.Addr = ":" ++ toString port := by
    simp [New, fmtInteger_eq_toString]
  exact ⟨hnew, by decide, rfl, by rw [register_keeps_http, hnew]⟩

/-! ## The per-request timeout -/

/-- C8, against the claim as stated, on the handler that `New(8080)` installs,
five requests.  (1) The inner handler returns after 4 seconds: only the timer
can come first, the status is 503 and the body is the library's default
timeout page, not the empty text.  (2) The inner handler returns at exactly
3 seconds: the timer case can be taken, and then the status is 503.  (3) The
inner handler calls `WriteHeader(99)` after 1 second: only the panic case can
be taken, `ServeHTTP` panics and no status, 503 or other, reaches the
connection.  (4) The inner handler writes "ok" and returns after 2 seconds but
the request's context is cancelled after 1 second: only the cancelled case can
be taken, the status is 503 and the body is empty.  (5) The inner handler
calls `WriteHeader(200)`, then sets the header "X-Late", and returns after
1 second: the header reaches the connection, though it is not part of the
response the same calls produce on the server's own writer. -/
theorem timeout_response_differs_from_claim :
    (mayFire (New 8080).http.Handler
        (Execution.mk [(4 * Second, .writeHeader 200), (4 * Second, .write "flower")]
          (.returns (4 * Second))) none Fired.deadline = true ∧
      mayFire (New 8080).http.Handler
        (Execution.mk [(4 * Second, .writeHeader 200), (4 * Second, .write "flower")]
          (.returns (4 * Second))) none Fired.done = false ∧
      ((New 8080).http.Handler.ServeHTTP
        (Execution.mk [(4 * Second, .writeHeader 200), (4 * Second, .write "flower")]
          (.returns (4 * Second))) none Fired.deadline ClientWriter.fresh).w.status = [503] ∧
      ((New 8080).http.Handler.ServeHTTP
        (Execution.mk [(4 * Second, .writeHeader 200), (4 * Second, .write "flower")]
          (.returns (4 * Second))) none Fired.deadline ClientWriter.fresh).w.body =
        "<html><head><title>Timeout</title></head><body><h1>Timeout</h1></body></html>" ∧
      ((New 8080).http.Handler.ServeHTTP
        (Execution.mk [(4 * Second, .writeHeader 200), (4 * Second, .write "flower")]
          (.returns (4 * Second))) none Fired.deadline ClientWriter.fresh).w.body ≠ "") ∧
    ((Execution.mk [(Second, .write "ok")] (.returns (3 * Second))).returnAt =
        some (3 * Second) ∧
      mayFire (New 8080).http.Handler
        (Execution.mk [(Second, .write "ok")] (.returns (3 * Second))) none
        Fired.deadline = true ∧
      ((New 8080).http.Handler.ServeHTTP
        (Execution.mk [(Second, .write "ok")] (.returns (3 * Second))) none
        Fired.deadline ClientWriter.fresh).w.status = [503]) ∧
    (mayFire (New 8080).http.Handler
        (Execution.mk [(Second, .writeHeader 99), (Second, .write "x")] (.returns Second))
        none Fired.panicked = true ∧
      mayFire (New 8080).http.Handler
        (Execution.mk [(Second, .writeHeader 99), (Second, .write "x")] (.returns Second))
        none Fired.done = false ∧
      mayFire (New 8080).http.Handler
        (Execution.mk [(Second, .writeHeader 99), (Second, .write "x")] (.returns Second))
        none Fired.deadline = false ∧
      ((New 8080).http.Handler.ServeHTTP
        (Execution.mk [(Second, .writeHeader 99), (Second, .write "x")] (.returns Second))
        none Fired.panicked ClientWriter.fresh).panicked = true ∧
      ((New 8080).http.Handler.ServeHTTP
        (Execution.mk [(Second, .writeHeader 99), (Second, .write "x")] (.returns Second))
        none Fired.panicked ClientWriter.fresh).w.status = []) ∧
    (mayFire (New 8080).http.Handler
        (Execution.mk [(Second, .write "ok")] (.returns (2 * Second))) (some Second)
        Fired.cancelled = true ∧
      mayFire (New 8080).http.Handler
        (Execution.mk [(Second, .write "ok")] (.returns (2 * Second))) (some Second)
        Fired.done = false ∧
      ((New 8080).http.Handler.ServeHTTP
        (Execution.mk [(Second, .write "ok")] (.returns (2 * Second))) (some Second)
        Fired.cancelled ClientWriter.fresh).w.status = [503] ∧
      ((New 8080).http.Handler.ServeHTTP
        (Execution.mk [(Second, .write "ok")] (.returns (2 * Second))) (some Second)
        Fired.cancelled ClientWriter.fresh).w.body = "") ∧
    (mayFire (New 8080).http.Handler
        (Execution.mk
          [(0, .writeHeader 200),
            (0, .header fun h k => if k = "X-Late" then some ["1"] else h k)]
          (.returns Second)) none Fired.done = true ∧
      ((New 8080).http.Handler.ServeHTTP
        (Execution.mk
          [(0, .writeHeader 200),
            (0, .header fun h k => if k = "X-Late" then some ["1"] else h k)]
          (.returns Second)) none Fired.done ClientWriter.fresh).w.header "X-Late" =
        some ["1"] ∧
      plainHeaderOf (fun _ => none)
        [.writeHeader 200, .header fun h k => if k = "X-Late" then some ["1"] else h k]
        "X-Late" = none) := by
  decide

/-- C8, amended.  `httpAPITimeout` is 3 seconds; the top-level handler of
`New(port)` is the timeout wrapper around the server's mux with that budget
and an empty message, also after any registrations.  `HandlerFunc` leaves the
wrapper unchanged; when it does not panic its registration is added to the
server's mux, and a request the library routes to that registration runs the
registered function; when it panics the mux is unchanged.  Serving a request
is running the wrapper on what the mux does with the request.  For every
request the wrapper takes the case of the event that comes first.  When the
inner handler returns first, the connection is given the status of the
handler's first `WriteHeader` (200 by default), the header map as the handler
leaves it on return, and every byte it wrote.  When the timer fires first, the
connection is given the single status 503, no header of the inner handler, and
the library's default timeout page as body, and a later `Write` of the inner
handler returns `http.ErrHandlerTimeout`.  When the request's context is
cancelled first, the connection is given the status 503 and no body.  When the
inner handler panics first, `ServeHTTP` panics and gives the connection
nothing.  For a request whose context is not cancelled: a handler that returns
before 3 seconds is served by the first case, one that panics before 3 seconds
by the last, one that has neither returned nor panicked after 3 seconds by the
timer case, and one that returns at exactly 3 seconds by the first or the
timer case; a cancellation before 3 seconds and before the handler ends is
served by the cancelled case. -/
theorem timeout_wrapper_serves (lib : MuxLibrary) (port : Int)
    (routes : List (String × (Request → Execution) × Bool)) (s : Server)
    (pattern : String) (handler : Request → Execution) (accepted : Bool) (r : Request)
    (inner : Execution) (cancelAt : Option Nat) (c : Fired) (w : ClientWriter)
    (p : String) (t : Nat)
    (hfire : mayFire (TimeoutHandler .serverMux (3 * Second) "") inner cancelAt c = true) :
    (httpAPITimeout = 3 * Second ∧
      (New port).http.Handler = TimeoutHandler .serverMux (3 * Second) "" ∧
      ((New port).register routes).server.http.Handler =
        TimeoutHandler .serverMux (3 * Second) "" ∧
      (s.HandlerFunc pattern handler accepted).server.http.Handler = s.http.Handler) ∧
    (((s.HandlerFunc pattern handler accepted).panicked = false →
        (s.HandlerFunc pattern handler accepted).server.mux.entries =
          s.mux.entries ++ [(pattern, RouteHandler.func handler)] ∧
        (lib.route (s.HandlerFunc pattern handler accepted).server.mux.patterns r =
            some s.mux.entries.length →
          (s.HandlerFunc pattern handler accepted).server.mux.ServeHTTP lib r = handler r)) ∧
      ((s.HandlerFunc pattern handler accepted).panicked = true →
        (s.HandlerFunc pattern handler accepted).server.mux.entries = s.mux.entries) ∧
      ((New port).register routes).server.ServeHTTP lib r cancelAt c w =
        (TimeoutHandler .serverMux (3 * Second) "").ServeHTTP
          (((New port).register routes).server.mux.ServeHTTP lib r) cancelAt c w) ∧
    ((c = Fired.done →
        ((TimeoutHandler .serverMux (3 * Second) "").ServeHTTP inner cancelAt c
            ClientWriter.fresh).panicked = false ∧
          ((TimeoutHandler .serverMux (3 * Second) "").ServeHTTP inner cancelAt c
            ClientWriter.fresh).w.status = [statusOf (inner.ops.map Prod.snd)] ∧
          ((TimeoutHandler .serverMux (3 * Second) "").ServeHTTP inner cancelAt c
            ClientWriter.fresh).w.header =
            headerAtReturn (fun _ => none) (inner.ops.map Prod.snd) ∧
          ((TimeoutHandler .serverMux (3 * Second) "").ServeHTTP inner cancelAt c
            ClientWriter.fresh).w.body = bodyOf (inner.ops.map Prod.snd)) ∧
      (c = Fired.deadline →
        ((TimeoutHandler .serverMux (3 * Second) "").ServeHTTP inner cancelAt c
            ClientWriter.fresh).panicked = false ∧
          ((TimeoutHandler .serverMux (3 * Second) "").ServeHTTP inner cancelAt c
            ClientWriter.fresh).w.status = [503] ∧
          ((TimeoutHandler .serverMux (3 * Second) "").ServeHTTP inner cancelAt c
            ClientWriter.fresh).w.header = ClientWriter.fresh.header ∧
          ((TimeoutHandler .serverMux (3 * Second) "").ServeHTTP inner cancelAt c
            ClientWriter.fresh).w.body =
            "<html><head><title>Timeout</title></head><body><h1>Timeout</h1></body></html>" ∧
          (((TimeoutHandler .serverMux (3 * Second) "").ServeHTTP inner cancelAt c
            ClientWriter.fresh).tw.Write p).2 = some .ErrHandlerTimeout) ∧
      (c = Fired.cancelled →
        ((TimeoutHandler .serverMux (3 * Second) "").ServeHTTP inner cancelAt c
            ClientWriter.fresh).panicked = false ∧
          ((TimeoutHandler .serverMux (3 * Second) "").ServeHTTP inner cancelAt c
            ClientWriter.fresh).w.status = [503] ∧
          ((TimeoutHandler .serverMux (3 * Second) "").ServeHTTP inner cancelAt c
            ClientWriter.fresh).w.header = ClientWriter.fresh.header ∧
          ((TimeoutHandler .serverMux (3 * Second) "").ServeHTTP inner cancelAt c
            ClientWriter.fresh).w.body = "") ∧
      (c = Fired.panicked →
        ((TimeoutHandler .serverMux (3 * Second) "").ServeHTTP inner cancelAt c
            ClientWriter.fresh).panicked = true ∧
          ((TimeoutHandler .serverMux (3 * Second) "").ServeHTTP inner cancelAt c
            ClientWriter.fresh).w.status = [] ∧
          ((TimeoutHandler .serverMux (3 * Second) "").ServeHTTP inner cancelAt c
            ClientWriter.fresh).w.header = ClientWriter.fresh.header ∧
          ((TimeoutHandler .serverMux (3 * Second) "").ServeHTTP inner cancelAt c
            ClientWriter.fresh).w.body = "")) ∧
    ((inner.returnAt = some t → t < 3 * Second → laterThan t cancelAt = true →
        c = Fired.done) ∧
      (inner.panicAt = some t → t < 3 * Second → laterThan t cancelAt = true →
        c = Fired.panicked) ∧
      (laterThan (3 * Second) inner.returnAt = true →
        laterThan (3 * Second) inner.panicAt = true →
        laterThan (3 * Second) cancelAt = true → c = Fired.deadline) ∧
      (inner.returnAt = some (3 * Second) → laterThan (3 * Second) cancelAt = true →
        c = Fired.done ∨ c = Fired.deadline) ∧
      (cancelAt = some t → t < 3 * Second → laterThan t inner.returnAt = true →
        laterThan t inner.panicAt = true → c = Fired.cancelled)) := by
  have hnew : (New port).http.Handler = TimeoutHandler .serverMux (3 * Second) "" := by
    simp [New, httpAPITimeout, Nat.mul_comm]
  have hreg : ((New port).register routes).server.http.Handler =
      TimeoutHandler .serverMux (3 * Second) "" := by
    rw [register_keeps_http, hnew]
  have hdt : (TimeoutHandler .serverMux (3 * Second) "").dt = 3 * Second := rfl
  refine ⟨⟨by simp [httpAPITimeout, Nat.mul_comm], hnew, hreg, rfl⟩, ⟨?_, ?_, ?_⟩,
    ⟨?_, ?_, ?_, ?_⟩, ⟨?_, ?_, ?_, ?_, ?_⟩⟩
  · -- an accepted registration is added to the mux that is served
    intro hok
    have hentries : (s.HandlerFunc pattern handler accepted).server.mux.entries =
        s.mux.entries ++ [(pattern, RouteHandler.func handler)] := by
      simp only [Server.HandlerFunc, ServeMux.HandleFunc] at hok ⊢
      split at hok
      · simp at hok
      · split at hok
        · simp at hok
        · split at hok
          · simp at hok
          · simp [*]
    refine ⟨hentries, ?_⟩
    intro hroute
    simp only [ServeMux.ServeHTTP, hroute, hentries]
    simp [RouteHandler.ServeHTTP]
  · intro hbad
    simp only [Server.HandlerFunc, ServeMux.HandleFunc] at hbad ⊢
    split at hbad
    · simp [*]
    · split at hbad
      · simp [*]
      · split at hbad
        · simp [*]
        · simp at hbad
  · simp only [Server.ServeHTTP, hreg]
  · -- the handler returned first
    intro hc
    subst hc
    have hnp := fire_done_returns _ inner cancelAt hfire
    obtain ⟨_, h1, h2, h3⟩ := run_live inner.ops
      { h := fun _ => none, wbuf := "", err := none, wroteHeader := false, code := 0 } rfl hnp
    simp only [if_true] at h1 h2 h3
    refine ⟨rfl, ?_, ?_, ?_⟩
    · simp only [timeoutHandler.ServeHTTP, ClientWriter.fresh, List.nil_append]
      rw [← h3]
      split <;> rfl
    · simp only [timeoutHandler.ServeHTTP]
      rw [copyHeader_fresh]
      exact h1
    · simp only [timeoutHandler.ServeHTTP, ClientWriter.fresh]
      split <;> simp [h2]
  · -- the timer fired first
    intro hc
    subst hc
    refine ⟨rfl, ?_, rfl, ?_, ?_⟩
    · simp [timeoutHandler.ServeHTTP, ClientWriter.fresh, StatusServiceUnavailable]
    · simp [timeoutHandler.ServeHTTP, ClientWriter.fresh, timeoutHandler.errorBody,
        TimeoutHandler]
    · have hw : ∀ tw : timeoutWriter, tw.err = some ErrorValue.ErrHandlerTimeout →
          (tw.Write p).2 = some ErrorValue.ErrHandlerTimeout := by
        intro tw h
        simp [timeoutWriter.Write, h]
      apply hw
      simp only [timeoutHandler.ServeHTTP]
      exact runAround_err _ _ _ _
  · -- the request's context was cancelled first
    intro hc
    subst hc
    refine ⟨rfl, ?_, rfl, ?_⟩
    · simp [timeoutHandler.ServeHTTP, ClientWriter.fresh, StatusServiceUnavailable]
    · simp [timeoutHandler.ServeHTTP, ClientWriter.fresh]
  · -- the handler panicked first
    intro hc
    subst hc
    exact ⟨rfl, rfl, rfl, rfl⟩
  · intro hr ht hc
    exact fire_done_of_early _ inner cancelAt c t hfire hr (by rw [hdt]; exact ht) hc
  · intro hp ht hc
    exact fire_panicked_of_early _ inner cancelAt c t hfire hp (by rw [hdt]; exact ht) hc
  · intro hr hp hc
    exact fire_deadline_of_late _ inner cancelAt c hfire (by rw [hdt]; exact hr)
      (by rw [hdt]; exact hp) (by rw [hdt]; exact hc)
  · intro hr hc
    exact fire_tie _ inner cancelAt c hfire (by rw [hdt]; exact hr) (by rw [hdt]; exact hc)
  · intro hcancel ht hr hp
    subst hcancel
    exact fire_cancelled_of_first _ inner c t hfire (by rw [hdt]; exact ht) hr hp

/-- C8, amended, on the wrapper and the server of `New(8080)`: for an inner
handler that writes "ok" and returns after 1 second the case taken is the
handler's return, and the connection is given the status 200 and the body
"ok"; the registration of "/" that `main` makes is added to the server's
mux. -/
theorem timeout_wrapper_serves_witness :
    mayFire (TimeoutHandler .serverMux (3 * Second) "")
        (Execution.mk [(Second, .write "ok")] (.returns Second)) none Fired.done = true ∧
      ((TimeoutHandler .serverMux (3 * Second) "").ServeHTTP
          (Execution.mk [(Second, .write "ok")] (.returns Second)) none Fired.done
          ClientWriter.fresh).w.status = [200] ∧
      ((TimeoutHandler .serverMux (3 * Second) "").ServeHTTP
          (Execution.mk [(Second, .write "ok")] (.returns Second)) none Fired.done
          ClientWriter.fresh).w.body = "ok" ∧
      ((New 8080).HandlerFunc "/" (fun _ => Execution.mk [] .never) true).server.mux.entries =
        (New 8080).mux.entries ++
          [("/", RouteHandler.func fun _ => Execution.mk [] .never)] :=
  ⟨by decide,
    (((timeout_wrapper_serves
      (MuxLibrary.mk (fun _ _ => none) (fun _ _ => Execution.mk [] .never)
        (fun _ _ => Execution.mk [] .never))
      8080 [] (New 8080) "/" (fun _ => Execution.mk [] .never) true (Request.mk "GET" "/")
      (Execution.mk [(Second, .write "ok")] (.returns Second)) none Fired.done
      ClientWriter.fresh "late" Second (by decide)).2.2.1.1) rfl).2.1,
    (((timeout_wrapper_serves
      (MuxLibrary.mk (fun _ _ => none) (fun _ _ => Execution.mk [] .never)
        (fun _ _ => Execution.mk [] .never))
      8080 [] (New 8080) "/" (fun _ => Execution.mk [] .never) true (Request.mk "GET" "/")
      (Execution.mk [(Second, .write "ok")] (.returns Second)) none Fired.done
      ClientWriter.fresh "late" Second (by decide)).2.2.1.1) rfl).2.2.2,
    (((timeout_wrapper_serves
      (MuxLibrary.mk (fun _ _ => none) (fun _ _ => Execution.mk [] .never)
        (fun _ _ => Execution.mk [] .never))
      8080 [] (New 8080) "/" (fun _ => Execution.mk [] .never) true (Request.mk "GET" "/")
      (Execution.mk [(Second, .write "ok")] (.returns Second)) none Fired.done
      ClientWriter.fresh "late" Second (by decide)).2.1.1) (by decide)).1⟩

end WebServer
